import Mathlib

/-!
Verification development for `ssdsync` (`src/main.rs`), a tool that
synchronizes a target file or block device to a source by reading both in
fixed-size blocks, comparing block pairs, and rewriting only differing blocks.

Shallow embedding notes.  The program runs reader tasks, a writer task and an
orchestrator loop on a single-threaded cooperative scheduler, connected by
bounded FIFO channels (capacity 16) carrying at most one outstanding buffer
per reader per loop round, so the observable data flow is deterministic and is
embedded here as a sequential state machine:

* `Buf` models `struct Buf { length: usize, data: Vec<u8> }` (main.rs:33-37);
  bytes are `Nat`s, `data` keeps its full backing storage including stale
  bytes beyond `length`.
* `bufBeq` models the derived `PartialEq` on `Buf` (field-by-field equality
  of `length` and of the whole `data` vector).
* `readChunk` models `file.read(&mut buf.data)` on a regular file followed by
  `buf.length = n` (main.rs:77-80): the read returns
  `min (buf.data.len()) (bytes remaining)` bytes, overwrites that many leading
  bytes of the backing storage and leaves the rest stale.
* `read_blocksModel` models the reader task loop (main.rs:71-86) applied to
  the finite list of buffers delivered on its inbound channel before closure.
* `write_blocksModel` models the writer task loop (main.rs:88-120); seek and
  write outcomes of the underlying handle are an oracle `env`, and the model
  returns the trace of seek/write operations performed plus the buffers sent
  back on the writer's outbound channel.
* `PState`/`step`/`runN` model the orchestrator: `initState` is the priming
  phase (main.rs:182-202, four zeroed buffers, two sent to the readers) and
  `step` is one iteration of the comparison loop (main.rs:204-258).
-/

/-- `struct Buf` (main.rs:33-37): a reusable buffer with a valid length and
its full backing byte storage. -/
structure Buf where
  length : Nat
  data : List Nat
deriving DecidableEq

/-- The derived `PartialEq` on `Buf` (main.rs:33): field-by-field equality,
comparing `length` and the ENTIRE `data` vector (stale bytes included). -/
def bufBeq (a b : Buf) : Bool :=
  a.length == b.length && a.data == b.data

/-- Equality as the spec's §3 words define it: same `validLength` and
identical byte content over `[0, validLength)` only.  Stated here solely to
compare against `bufBeq`, the equality the code actually uses. -/
def specBufEq (a b : Buf) : Bool :=
  a.length == b.length && a.data.take a.length == b.data.take b.length

/-- First `length` bytes of the buffer: the bytes `Buf::as_slice`
(main.rs:40-43) yields when it does not panic, and the bytes the writer
passes to `f.write` (main.rs:99). -/
def Buf.sliceBytes (b : Buf) : List Nat :=
  b.data.take b.length

/-- `Buf::as_slice` (main.rs:40-43): `split_at(self.length)` panics when
`length > data.len()`; the panic is modelled as `none`. -/
def Buf.as_slice (b : Buf) : Option (List Nat) :=
  if b.length ≤ b.data.length then some b.sliceBytes else none

/-- One `file.read(&mut buf.data)` into a buffer on a regular file, followed
by `buf.length = n` (main.rs:77-80): reads `min capacity remaining` bytes at
the handle's cursor, overwriting that many leading bytes of the backing
storage; returns the refilled buffer and the remaining stream. -/
def readChunk (stream : List Nat) (b : Buf) : Buf × List Nat :=
  let n := min b.data.length stream.length
  (⟨n, stream.take n ++ b.data.drop n⟩, stream.drop n)

/-- The reader task loop `read_blocks` (main.rs:71-86) run over the finite
list of buffers received on its inbound channel (in FIFO order) before the
channel closes: every received buffer is refilled and resent, with no
end-of-stream check — a 0-byte read just produces a buffer with `length = 0`
which is sent like any other. -/
def read_blocksModel (stream : List Nat) : List Buf → List Buf
  | [] => []
  | b :: bs =>
    let r := readChunk stream b
    r.1 :: read_blocksModel r.2 bs

/-- Outcome of the seek+write syscalls for one write request, an oracle for
the target handle's behaviour in `write_blocks` (main.rs:93-113). -/
inductive WOutcome where
  | seekFail : WOutcome
  | writeFail : WOutcome
  | wrote : Nat → WOutcome
deriving DecidableEq

/-- A syscall performed by the writer on the target handle. -/
inductive WOp where
  | seek : Nat → WOp
  | write : List Nat → WOp
deriving DecidableEq

/-- Whether an outcome makes `write_blocks` bail out for a request carrying
buffer `b`: seek error, write error, or `written != buf.length`
(main.rs:95-113).  A short write (`wrote n` with `n ≠ b.length`) is fatal. -/
def WOutcome.fatalFor : WOutcome → Buf → Bool
  | .seekFail, _ => true
  | .writeFail, _ => true
  | .wrote n, b => n != b.length

/-- The writer task loop `write_blocks` (main.rs:88-120) over the finite FIFO
of `(position, buffer)` requests, with syscall outcomes given by `env`
(`env i` is the outcome for the `i`-th processed request).  Returns the trace
of seek/write syscalls performed and the buffers sent back on the writer's
outbound channel.  On seek error the function returns after the seek alone;
on write error or short write it returns after the one write attempt, never
retrying and never touching the remaining requests. -/
def write_blocksModel (env : Nat → WOutcome) : List (Nat × Buf) → List WOp × List Buf
  | [] => ([], [])
  | (pos, buf) :: rest =>
    match env 0 with
    | .seekFail => ([WOp.seek pos], [])
    | .writeFail => ([WOp.seek pos, WOp.write buf.sliceBytes], [])
    | .wrote n =>
      if n == buf.length then
        let r := write_blocksModel (fun i => env (i + 1)) rest
        (WOp.seek pos :: WOp.write buf.sliceBytes :: r.1, buf :: r.2)
      else
        ([WOp.seek pos, WOp.write buf.sliceBytes], [])

/-- The seek/write trace of a run in which every listed request succeeds:
exactly one seek to the request's position and one write of the buffer's
first `length` bytes, per request, in order. -/
def opsFor : List (Nat × Buf) → List WOp
  | [] => []
  | r :: rest => WOp.seek r.1 :: WOp.write r.2.sliceBytes :: opsFor rest

/-- The syscalls the writer performs for the single request on which it
fails: the seek alone if the seek failed, otherwise the seek and the one
(failed or short) write attempt. -/
def failOps (o : WOutcome) (r : Nat × Buf) : List WOp :=
  match o with
  | .seekFail => [WOp.seek r.1]
  | _ => [WOp.seek r.1, WOp.write r.2.sliceBytes]

/-- All listed requests complete without a fatal outcome under `env`. -/
def okRun (env : Nat → WOutcome) : List (Nat × Buf) → Bool
  | [] => true
  | r :: rest => !(WOutcome.fatalFor (env 0) r.2) && okRun (fun i => env (i + 1)) rest

/-- Either no request remains, or the first remaining request hits a fatal
outcome (`env k` being its outcome). -/
def tailFatal (env : Nat → WOutcome) (k : Nat) (rs : List (Nat × Buf)) : Bool :=
  match rs.head? with
  | none => true
  | some r => WOutcome.fatalFor (env k) r.2

/-- Trailing syscalls contributed by the first unprocessed-to-completion
request, if any. -/
def tailOps (env : Nat → WOutcome) (k : Nat) (rs : List (Nat × Buf)) : List WOp :=
  match rs.head? with
  | none => []
  | some r => failOps (env k) r

/-- Orchestrator state for `main`'s comparison loop (main.rs:178-258).
`pool` is the `buffers: VecDeque<Buf>`; `bsrc`/`btgt` are the pair of filled
buffers just received from the readers; `src`/`tgt` are the unread remainders
of the two streams; `writes` is the log of `(position, buffer)` requests sent
to the writer; `halted` records the `break` at main.rs:208-211 and `crashed`
records a `pop_front().unwrap()` panic on an empty pool (main.rs:219-220). -/
structure PState where
  pool : List Buf
  bsrc : Buf
  btgt : Buf
  src : List Nat
  tgt : List Nat
  total : Nat
  diff : Nat
  pos : Nat
  writes : List (Nat × Buf)
  halted : Bool
  crashed : Bool
deriving DecidableEq

/-- A freshly allocated buffer (main.rs:185-188): `vec![0; block_size]` with
`length = 0`. -/
def zeroBuf (bs : Nat) : Buf :=
  ⟨0, List.replicate bs 0⟩

/-- Priming (main.rs:182-202): allocate four zeroed buffers, send one to each
reader, and wait for the first filled pair; the pool keeps the other two. -/
def initState (bs : Nat) (src tgt : List Nat) : PState :=
  let rs := readChunk src (zeroBuf bs)
  let rt := readChunk tgt (zeroBuf bs)
  { pool := [zeroBuf bs, zeroBuf bs]
    bsrc := rs.1
    btgt := rt.1
    src := rs.2
    tgt := rt.2
    total := 0
    diff := 0
    pos := 0
    writes := []
    halted := false
    crashed := false }

/-- One iteration of the comparison loop (main.rs:204-258).  Faithful to the
source: the loop breaks when either buffer is empty or the lengths differ
(main.rs:208); otherwise it pops two pool buffers for the readers
(main.rs:218-221, panic if the pool is short); on an equal pair it returns
both buffers to the pool and receives the next pair, with `total` and `pos`
untouched — the `continue` at main.rs:234 skips the updates at
main.rs:255-257; on a differing pair it returns the target buffer to the
pool, sends `(pos, bsrc)` to the writer, receives the writer's returned
buffer into the pool (main.rs:239-253), and bumps `diff`, `total`, `pos`. -/
def step (s : PState) : PState :=
  if s.halted || s.crashed then s
  else if s.bsrc.length == 0 || s.btgt.length == 0 || s.bsrc.length != s.btgt.length then
    { s with halted := true }
  else
    match s.pool with
    | p1 :: p2 :: rest =>
      let rs := readChunk s.src p1
      let rt := readChunk s.tgt p2
      if bufBeq s.bsrc s.btgt then
        { s with pool := rest ++ [s.bsrc, s.btgt]
                 bsrc := rs.1, btgt := rt.1, src := rs.2, tgt := rt.2 }
      else
        { s with pool := rest ++ [s.btgt, s.bsrc]
                 bsrc := rs.1, btgt := rt.1, src := rs.2, tgt := rt.2
                 total := s.total + 1
                 diff := s.diff + 1
                 pos := s.pos + s.bsrc.length
                 writes := s.writes ++ [(s.pos, s.bsrc)] }
    | _ => { s with crashed := true }

/-- `n` iterations of the comparison loop (the loop is stationary once
`halted`). -/
def runN : Nat → PState → PState
  | 0, s => s
  | n + 1, s => runN n (step s)

/-- One committed write on the target: seek to `pos`, then overwrite
`bytes.length` bytes there (main.rs:95-99). -/
def writeAt (file : List Nat) (pos : Nat) (bytes : List Nat) : List Nat :=
  file.take pos ++ bytes ++ file.drop (pos + bytes.length)

/-- Final target contents after the writer commits every logged request, in
order; each request writes the buffer's first `length` bytes. -/
def applyWrites (file : List Nat) (ws : List (Nat × Buf)) : List Nat :=
  ws.foldl (fun f w => writeAt f w.1 w.2.sliceBytes) file

/-- `Args::block_size`'s clap default (main.rs:29): `4096 * 8`. -/
def argsBlockSizeDefault : Nat := 4096 * 8

/-- The block size the pipeline actually uses (main.rs:154):
`let block_size = 16 * 1024;` — a hard-coded constant; `args.block_size` is
parsed but never read, so the result ignores its argument. -/
def pipelineBlockSize (_argsBlockSize : Nat) : Nat := 16 * 1024

/-- A buffer is well-formed for block size `bs` when its valid length is
within its backing storage and its backing storage has exactly `bs` bytes
(the capacity fixed at allocation, main.rs:186). -/
def bufOkB (bs : Nat) (b : Buf) : Bool :=
  decide (b.length ≤ b.data.length) && (b.data.length == bs)

/-- Pipeline invariant: the orchestrator's pool holds exactly two buffers (so
the two `pop_front().unwrap()` at main.rs:219-220 cannot panic and together
with the compared pair the four buffers allocated at main.rs:183-189 are all
accounted for), no panic has occurred, and every buffer anywhere in the state
is well-formed for the configured block size. -/
def stateOkB (bs : Nat) (s : PState) : Bool :=
  (s.pool.length == 2) && !s.crashed &&
  s.pool.all (bufOkB bs) && bufOkB bs s.bsrc && bufOkB bs s.btgt &&
  s.writes.all (fun w => bufOkB bs w.2)

/-- Four bytes `aaaa` (0x61). -/
def blkA : List Nat := List.replicate 4 97
/-- Four bytes `bbbb` (0x62). -/
def blkB : List Nat := List.replicate 4 98
/-- Four bytes `cccc` (0x63). -/
def blkC : List Nat := List.replicate 4 99
/-- Four bytes `xxxx` (0x78). -/
def blkX : List Nat := List.replicate 4 120

/-! ## Invariant lemmas for the orchestrator state machine -/

theorem readChunk_ok {bs : Nat} {b : Buf} (stream : List Nat)
    (h : bufOkB bs b = true) : bufOkB bs (readChunk stream b).1 = true := by
  simp only [bufOkB, readChunk, Bool.and_eq_true, decide_eq_true_eq, beq_iff_eq,
    List.length_append, List.length_take, List.length_drop] at h ⊢
  omega

theorem zeroBuf_ok (bs : Nat) : bufOkB bs (zeroBuf bs) = true := by
  simp [bufOkB, zeroBuf]

theorem stateOk_init (bs : Nat) (src tgt : List Nat) :
    stateOkB bs (initState bs src tgt) = true := by
  simp only [stateOkB, initState, Bool.and_eq_true, List.all_cons, List.all_nil]
  refine ⟨⟨⟨⟨⟨by simp, by simp⟩, ?_⟩, ?_⟩, ?_⟩, by simp⟩
  · simp [zeroBuf_ok]
  · exact readChunk_ok src (zeroBuf_ok bs)
  · exact readChunk_ok tgt (zeroBuf_ok bs)

theorem stateOk_step {bs : Nat} {s : PState} (h : stateOkB bs s = true) :
    stateOkB bs (step s) = true := by
  simp only [stateOkB, Bool.and_eq_true, beq_iff_eq, Bool.not_eq_true'] at h
  obtain ⟨⟨⟨⟨⟨hlen, hcr⟩, hpool⟩, hbsrc⟩, hbtgt⟩, hwr⟩ := h
  obtain ⟨p1, p2, hp⟩ := List.length_eq_two.mp hlen
  unfold step
  by_cases h1 : (s.halted || s.crashed) = true
  · simp only [h1, if_true]
    simp only [stateOkB, Bool.and_eq_true, beq_iff_eq, Bool.not_eq_true']
    exact ⟨⟨⟨⟨⟨hlen, hcr⟩, hpool⟩, hbsrc⟩, hbtgt⟩, hwr⟩
  · simp only [Bool.not_eq_true] at h1
    simp only [h1, Bool.false_eq_true, if_false]
    by_cases h2 : (s.bsrc.length == 0 || s.btgt.length == 0
        || s.bsrc.length != s.btgt.length) = true
    · simp only [h2, if_true]
      simp only [stateOkB, Bool.and_eq_true, beq_iff_eq, Bool.not_eq_true']
      exact ⟨⟨⟨⟨⟨hlen, hcr⟩, hpool⟩, hbsrc⟩, hbtgt⟩, hwr⟩
    · simp only [Bool.not_eq_true] at h2
      simp only [h2, Bool.false_eq_true, if_false, hp]
      have hp1 : bufOkB bs p1 = true := by
        have := hpool; rw [hp] at this; simp [List.all_cons, Bool.and_eq_true] at this
        exact this.1
      have hp2 : bufOkB bs p2 = true := by
        have := hpool; rw [hp] at this; simp [List.all_cons, Bool.and_eq_true] at this
        exact this.2
      by_cases heq : bufBeq s.bsrc s.btgt = true
      · simp only [heq, if_true]
        simp only [stateOkB, Bool.and_eq_true, beq_iff_eq, Bool.not_eq_true']
        refine ⟨⟨⟨⟨⟨by simp, hcr⟩, ?_⟩, ?_⟩, ?_⟩, hwr⟩
        · simp [List.all_cons, hbsrc, hbtgt]
        · exact readChunk_ok s.src hp1
        · exact readChunk_ok s.tgt hp2
      · simp only [Bool.not_eq_true] at heq
        simp only [heq, Bool.false_eq_true, if_false]
        simp only [stateOkB, Bool.and_eq_true, beq_iff_eq, Bool.not_eq_true']
        refine ⟨⟨⟨⟨⟨by simp, hcr⟩, ?_⟩, ?_⟩, ?_⟩, ?_⟩
        · simp [List.all_cons, hbsrc, hbtgt]
        · exact readChunk_ok s.src hp1
        · exact readChunk_ok s.tgt hp2
        · simp [List.all_append, List.all_cons, hwr, hbsrc]

theorem stateOk_runN {bs : Nat} :
    ∀ (n : Nat) (s : PState), stateOkB bs s = true → stateOkB bs (runN n s) = true
  | 0, _, h => h
  | n + 1, s, h => stateOk_runN n (step s) (stateOk_step h)

/-! ## Claim theorems -/

/-- C9: buffer conservation.  Four buffers are allocated at startup
(main.rs:183-189).  After any number of loop iterations the orchestrator's
pool still holds exactly two buffers while the orchestrator holds the
compared pair `bsrc`, `btgt` — two plus two equals the four allocated — and
no `pop_front().unwrap()` panic ever occurs, so no buffer is created or
dropped between allocation and shutdown. -/
theorem c9_buffer_conservation (bs : Nat) (src tgt : List Nat) (n : Nat) :
    (runN n (initState bs src tgt)).pool.length + 2 = 4 ∧
    (runN n (initState bs src tgt)).crashed = false := by
  have h := stateOk_runN n (initState bs src tgt) (stateOk_init bs src tgt)
  simp only [stateOkB, Bool.and_eq_true, beq_iff_eq, Bool.not_eq_true'] at h
  obtain ⟨⟨⟨⟨⟨hlen, hcr⟩, _⟩, _⟩, _⟩, _⟩ := h
  exact ⟨by omega, hcr⟩

theorem bufOkB_as_slice {bs : Nat} {b : Buf} (h : bufOkB bs b = true) :
    b.as_slice.isSome = true := by
  simp only [bufOkB, Bool.and_eq_true, decide_eq_true_eq, beq_iff_eq] at h
  simp [Buf.as_slice, h.1]

/-- C10: every buffer the pipeline circulates keeps `length ≤ data.len()`:
buffers start with `length = 0` and capacity `block_size` (main.rs:183-189),
and a reader only ever sets `length` to the byte count a read into that
buffer's storage returned (main.rs:77-80).  Hence for every reachable
orchestrator state, `Buf::as_slice`'s `split_at(self.length)` succeeds
(returns `some`) on the compared pair, on every pooled buffer and on every
buffer sent to the writer — so the writer's write of the first `length`
bytes is always in bounds. -/
theorem c10_valid_length_within_capacity (bs : Nat) (src tgt : List Nat) (n : Nat) :
    (runN n (initState bs src tgt)).bsrc.length
        ≤ (runN n (initState bs src tgt)).bsrc.data.length ∧
    (runN n (initState bs src tgt)).bsrc.as_slice.isSome = true ∧
    (runN n (initState bs src tgt)).btgt.as_slice.isSome = true ∧
    (runN n (initState bs src tgt)).pool.all (fun b => b.as_slice.isSome) = true ∧
    (runN n (initState bs src tgt)).writes.all (fun w => w.2.as_slice.isSome) = true := by
  have h := stateOk_runN n (initState bs src tgt) (stateOk_init bs src tgt)
  simp only [stateOkB, Bool.and_eq_true, beq_iff_eq, Bool.not_eq_true'] at h
  obtain ⟨⟨⟨⟨⟨_, _⟩, hpool⟩, hbsrc⟩, hbtgt⟩, hwr⟩ := h
  refine ⟨?_, bufOkB_as_slice hbsrc, bufOkB_as_slice hbtgt, ?_, ?_⟩
  · have := hbsrc
    simp only [bufOkB, Bool.and_eq_true, decide_eq_true_eq, beq_iff_eq] at this
    exact this.1
  · rw [List.all_eq_true] at hpool ⊢
    exact fun b hb => bufOkB_as_slice (hpool b hb)
  · rw [List.all_eq_true] at hwr ⊢
    exact fun w hw => bufOkB_as_slice (hwr w hw)

/-- C1 (code bug evidence): a run with a single differing block at block
index 1 (block size 4, source blocks `aaaa, bbbb`, target blocks
`aaaa, xxxx`, preceding block equal and full-sized).  The orchestrator's
`continue` for an equal pair (main.rs:234) skips `pos += n` (main.rs:257), so
`pos` is advanced only for rewritten pairs; the single write request is
issued with position `0`, not `1 * 4` as the claim requires. -/
theorem c1_position_not_advanced_on_equal_pairs :
    (runN 8 (initState 4 (blkA ++ blkB) (blkA ++ blkX))).halted = true ∧
    (runN 8 (initState 4 (blkA ++ blkB) (blkA ++ blkX))).writes
        = [(0, Buf.mk 4 blkB)] ∧
    (runN 8 (initState 4 (blkA ++ blkB) (blkA ++ blkX))).pos = 4 ∧
    (0 : Nat) ≠ 1 * 4 := by
  decide

/-- C2 (code bug evidence): source blocks `aaaa, aaaa, bbbb`, target blocks
`aaaa, aaaa, xxxx` (block size 4) — only block 2 differs.  Because `pos` is
not advanced for equal pairs, the single write lands at byte range `[0, 4)`,
a range where source and target were byte-identical; the final target is
`bbbb aaaa xxxx`: bytes that matched the source were rewritten (and changed),
while the differing range `[8, 12)` was left unpatched. -/
theorem c2_write_clobbers_equal_range :
    (runN 8 (initState 4 (blkA ++ blkA ++ blkB) (blkA ++ blkA ++ blkX))).writes
        = [(0, Buf.mk 4 blkB)] ∧
    (blkA ++ blkA ++ blkB).take 4 = (blkA ++ blkA ++ blkX).take 4 ∧
    applyWrites (blkA ++ blkA ++ blkX)
        (runN 8 (initState 4 (blkA ++ blkA ++ blkB) (blkA ++ blkA ++ blkX))).writes
      = blkB ++ blkA ++ blkX ∧
    (blkB ++ blkA ++ blkX).take 4 ≠ (blkA ++ blkA ++ blkX).take 4 := by
  decide

/-- C3 (code bug evidence): the spec's end-to-end scenario — source
`[A,B,C]`, target `[A,X,C]`, block size 4.  The run halts with
`total = 1` (not 3: `total += 1` at main.rs:256 is only reached in the
differing branch), `diff = 1`, one write of `bbbb` at offset 0 (not 4), and
the target ends as `bbbb xxxx cccc`, not `[A,B,C]`. -/
theorem c3_scenario_run_eval :
    (runN 8 (initState 4 (blkA ++ blkB ++ blkC) (blkA ++ blkX ++ blkC))).halted = true ∧
    (runN 8 (initState 4 (blkA ++ blkB ++ blkC) (blkA ++ blkX ++ blkC))).total = 1 ∧
    (runN 8 (initState 4 (blkA ++ blkB ++ blkC) (blkA ++ blkX ++ blkC))).diff = 1 ∧
    (runN 8 (initState 4 (blkA ++ blkB ++ blkC) (blkA ++ blkX ++ blkC))).writes
        = [(0, Buf.mk 4 blkB)] ∧
    applyWrites (blkA ++ blkX ++ blkC)
        (runN 8 (initState 4 (blkA ++ blkB ++ blkC) (blkA ++ blkX ++ blkC))).writes
      = blkB ++ blkX ++ blkC ∧
    (1 : Nat) ≠ 3 ∧
    blkB ++ blkX ++ blkC ≠ blkA ++ blkB ++ blkC := by
  decide

/-- C4 counterexample: two buffers with the same `validLength` (1) and
identical content over `[0, 1)` (byte 99) that differ only in a stale byte
beyond `validLength` (120 vs 98).  They are equal per the spec's definition
(`specBufEq`) but unequal under the derived `PartialEq` the orchestrator
uses (`bufBeq`, main.rs:33 and main.rs:228), so bytes beyond `validLength`
do influence the comparison outcome. -/
theorem c4_stale_bytes_affect_equality :
    specBufEq (Buf.mk 1 [99, 120]) (Buf.mk 1 [99, 98]) = true ∧
    bufBeq (Buf.mk 1 [99, 120]) (Buf.mk 1 [99, 98]) = false := by
  decide

/-- C4 amended: the equality the orchestrator uses holds iff the two buffers
have the same `validLength` and identical bytes over the ENTIRE backing
storage; in particular it implies the spec's prefix equality, but not
conversely. -/
theorem c4_equality_full_data (a b : Buf) :
    (bufBeq a b = true ↔ a.length = b.length ∧ a.data = b.data) ∧
    (bufBeq a b = true → specBufEq a b = true) := by
  constructor
  · simp [bufBeq]
  · intro h
    simp only [bufBeq, Bool.and_eq_true, beq_iff_eq] at h
    simp [specBufEq, h.1, h.2]

theorem c4_equality_full_data_w :
    specBufEq (Buf.mk 1 [99, 120]) (Buf.mk 1 [99, 120]) = true :=
  (c4_equality_full_data (Buf.mk 1 [99, 120]) (Buf.mk 1 [99, 120])).2 (by decide)

/-- C5 counterexample: running the reader loop at end of stream (empty
remaining stream) over two incoming buffers.  `read_blocks` has no zero-byte
check (main.rs:76-85): both 0-byte reads produce buffers with `length = 0`
that ARE sent on the outbound channel, and the loop keeps processing — the
claim's "does not resend that buffer and terminates" fails. -/
theorem c5_zero_length_buffer_resent :
    read_blocksModel [] [zeroBuf 1, zeroBuf 1] = [Buf.mk 0 [0], Buf.mk 0 [0]] ∧
    (read_blocksModel [] [zeroBuf 1, zeroBuf 1]).length ≠ 0 := by
  decide

/-- C5 amended: the reader refills and resends EVERY buffer it receives,
zero-length results included, and keeps receiving until its inbound channel
closes; end of stream is signalled to the orchestrator by the delivery of a
zero-length buffer, which is exactly what the loop's termination test at
main.rs:208 checks. -/
theorem c5_reader_forwards_all_buffers :
    (∀ (stream : List Nat) (bufs : List Buf),
        (read_blocksModel stream bufs).length = bufs.length) ∧
    (∀ s : PState, s.halted = false → s.crashed = false → s.bsrc.length = 0 →
        (step s).halted = true) := by
  constructor
  · intro stream bufs
    induction bufs generalizing stream with
    | nil => rfl
    | cons b bs ih => simp [read_blocksModel, ih]
  · intro s h1 h2 h3
    simp [step, h1, h2, h3]

theorem c5_reader_forwards_all_buffers_w :
    (read_blocksModel [] [zeroBuf 2]).length = [zeroBuf 2].length ∧
    (step (initState 1 [] [])).halted = true :=
  ⟨c5_reader_forwards_all_buffers.1 [] [zeroBuf 2],
   c5_reader_forwards_all_buffers.2 (initState 1 [] []) rfl rfl rfl⟩

/-- C7 counterexample: one rewrite round (block size 4, source block `bbbb`,
target block `xxxx`).  After the round, the buffer the writer consumed and
returned (`⟨4, bbbb⟩`, the very buffer of the lone write request) sits in the
orchestrator's pool `buffers` (`buffers.push_back(bw.unwrap())`,
main.rs:253): the writer's outbound channel is received by the orchestrator
(main.rs:245), not by the source reader, so the written buffer does pass
through a pool held by the orchestrator rather than re-entering the source
reader's queue directly. -/
theorem c7_written_buffer_enters_pool :
    (runN 1 (initState 4 (blkB ++ blkC) (blkX ++ blkC))).writes
        = [(0, Buf.mk 4 blkB)] ∧
    (runN 1 (initState 4 (blkB ++ blkC) (blkX ++ blkC))).pool
        = [Buf.mk 4 blkX, Buf.mk 4 blkB] := by
  decide

/-- C8 (code bug evidence): `main` ignores the parsed `--block-size` option:
main.rs:154 hard-codes `let block_size = 16 * 1024;`, so the pipeline's block
size is 16384 whatever the CLI says — neither a given `--block-size 4096` nor
the clap default `4096 * 8 = 32768` is ever used. -/
theorem c8_block_size_hardcoded :
    pipelineBlockSize 4096 = 16384 ∧
    pipelineBlockSize argsBlockSizeDefault = 16384 ∧
    argsBlockSizeDefault = 32768 ∧
    pipelineBlockSize 4096 ≠ 4096 ∧
    pipelineBlockSize argsBlockSizeDefault ≠ argsBlockSizeDefault := by
  decide

/-- C6: for every oracle of seek/write outcomes and every request list, the
writer processes a maximal fault-free prefix of `k` requests, performing for
each exactly one seek to its position and one write attempt of the buffer's
first `validLength` bytes (`opsFor`), in order, and returns exactly those
`k` buffers; either every request was processed (`k = reqs.length`) or the
next request's outcome is fatal — seek error, write error, or fewer bytes
written than `validLength` — in which case that request contributes only its
single seek (and single failed/short write attempt), nothing is retried or
resumed, and no later request is accepted. -/
theorem c6_writer_single_attempt_per_request (env : Nat → WOutcome)
    (reqs : List (Nat × Buf)) :
    ∃ k, k ≤ reqs.length ∧
      okRun env (reqs.take k) = true ∧
      tailFatal env k (reqs.drop k) = true ∧
      (write_blocksModel env reqs).1
        = opsFor (reqs.take k) ++ tailOps env k (reqs.drop k) ∧
      (write_blocksModel env reqs).2 = (reqs.take k).map Prod.snd := by
  induction reqs generalizing env with
  | nil =>
    exact ⟨0, by simp [okRun, tailFatal, tailOps, write_blocksModel, opsFor]⟩
  | cons r rest ih =>
    obtain ⟨pos, buf⟩ := r
    cases h : env 0 with
    | seekFail =>
      refine ⟨0, by simp, by simp [okRun], ?_, ?_, by simp [write_blocksModel, h]⟩
      · simp [tailFatal, h, WOutcome.fatalFor]
      · simp [write_blocksModel, h, opsFor, tailOps, failOps]
    | writeFail =>
      refine ⟨0, by simp, by simp [okRun], ?_, ?_, by simp [write_blocksModel, h]⟩
      · simp [tailFatal, h, WOutcome.fatalFor]
      · simp [write_blocksModel, h, opsFor, tailOps, failOps]
    | wrote n =>
      by_cases hn : n = buf.length
      · obtain ⟨k, hk, hok, hfat, hops, hret⟩ := ih (fun i => env (i + 1))
        refine ⟨k + 1, by simpa using hk, ?_, ?_, ?_, ?_⟩
        · simp [okRun, h, WOutcome.fatalFor, hn, hok]
        · simpa [tailFatal] using hfat
        · simp [write_blocksModel, h, hn, opsFor, hops, tailOps]
        · simp [write_blocksModel, h, hn, hret]
      · refine ⟨0, by simp, by simp [okRun], ?_, ?_, by simp [write_blocksModel, h, hn]⟩
        · simp [tailFatal, h, WOutcome.fatalFor, hn]
        · simp [write_blocksModel, h, hn, opsFor, tailOps, failOps]

/-- C7 amended (general form): in any loop state on a differing pair, the
step sends `(pos, bsrc)` to the writer and the pool afterwards ends with the
target-reader buffer followed by the writer-returned buffer (`bsrc` itself) —
the writer's consumed buffer is appended to the orchestrator's pool
(main.rs:239-253), and readers are only ever fed buffers popped from that
pool (main.rs:218-221). -/
theorem c7_writer_returns_via_pool (s : PState) (p1 p2 : Buf) (rest : List Buf)
    (hpool : s.pool = p1 :: p2 :: rest)
    (hh : s.halted = false) (hc : s.crashed = false)
    (_h1 : s.bsrc.length ≠ 0) (h2 : s.btgt.length ≠ 0)
    (h3 : s.bsrc.length = s.btgt.length)
    (hne : bufBeq s.bsrc s.btgt = false) :
    (step s).pool = rest ++ [s.btgt, s.bsrc] ∧
    (step s).writes = s.writes ++ [(s.pos, s.bsrc)] := by
  simp [step, hpool, hh, hc, h2, h3, hne]

theorem c7_writer_returns_via_pool_w :
    (step (initState 4 (blkB ++ blkC) (blkX ++ blkC))).pool
        = [Buf.mk 4 blkX, Buf.mk 4 blkB] ∧
    (step (initState 4 (blkB ++ blkC) (blkX ++ blkC))).writes
        = [(0, Buf.mk 4 blkB)] :=
  c7_writer_returns_via_pool (initState 4 (blkB ++ blkC) (blkX ++ blkC))
    (zeroBuf 4) (zeroBuf 4) [] rfl rfl rfl (by decide) (by decide) (by decide)
    (by decide)
